import Mathlib

/-!
Verification of the OpenTracing span adapter (`ddtrace/opentracer/span.py`).

The adapter is embedded shallowly: every Python method becomes a pure Lean
function on an explicit state, mutation of `self` becomes returning an updated
state, and Python exceptions become `Except`.  Components of the repository
that the adapter uses but whose files are not part of the analysed sources
(`SpanContext` from `span_context.py`, the reserved tag keys `OTTags` from
`tags.py`, the structural error keys from `ddtrace.ext.errors`, and the
delegate `DatadogSpan` from `ddtrace.span`) are modelled from the
specification; each such definition says so in its doc comment.
-/

set_option autoImplicit false

namespace DDTrace

/-- A shallow stand-in for the Python values stored in tags, baggage and log
records: strings, integers, booleans and `None`. -/
inductive Value where
  | str (s : String)
  | int (n : Int)
  | bool (b : Bool)
  | none
  deriving DecidableEq, Repr

/-- A Python-dict-like string-keyed mapping, as an insertion-ordered
association list (Python dicts preserve insertion order). -/
abbrev KVMap := List (String × Value)

/-- Dict assignment `m[k] = v`: overwrite in place when the key is present,
append otherwise. -/
def KVMap.set (m : KVMap) (k : String) (v : Value) : KVMap :=
  if m.any (fun p => p.1 == k) then
    m.map (fun p => if p.1 == k then (k, v) else p)
  else
    m ++ [(k, v)]

/-- Dict lookup `m.get(k)`: the value for `k`, or `none` when absent. -/
def KVMap.get (m : KVMap) (k : String) : Option Value :=
  (m.find? (fun p => p.1 == k)).map (fun p => p.2)

/-- Modelled from the spec: `SpanContext` (its file `span_context.py` is not
among the analysed sources).  Per the spec's data model it carries an opaque
borrowed reference to the underlying tracer's context (here an identifier)
plus a baggage mapping, and it is immutable: every baggage change produces a
new value. -/
structure SpanContext where
  _dd_context : Option Nat := Option.none
  baggage : KVMap := []
  deriving DecidableEq, Repr

/-- Modelled from the spec: pure copy-on-write baggage update — a new
`SpanContext` with the same underlying reference and the receiver's baggage
with `key` set to `value`; the receiver is not mutated. -/
def SpanContext.with_baggage_item (c : SpanContext) (key : String) (value : Value) : SpanContext :=
  { c with baggage := KVMap.set c.baggage key value }

/-- Modelled from the spec: pure baggage read; the not-found sentinel is
`none`. -/
def SpanContext.get_baggage_item (c : SpanContext) (key : String) : Option Value :=
  KVMap.get c.baggage key

/-- Modelled from the spec: the reserved tag keys (`OTTags`, from the
adapter's `tags.py`, not among the analysed sources).  The spec names a
span-kind/type key, an HTTP-URL key and a database-statement key. -/
def OTTags.SPAN_TYPE : String := "span.kind"

/-- Modelled from the spec: the reserved HTTP-URL tag key. -/
def OTTags.HTTP_URL : String := "http.url"

/-- Modelled from the spec: the reserved database-statement tag key. -/
def OTTags.DB_STATEMENT : String := "db.statement"

/-- Modelled from the spec: the structural error-type tag key
(`ddtrace.ext.errors.ERROR_TYPE`, not among the analysed sources). -/
def errors.ERROR_TYPE : String := "error.type"

/-- Modelled from the spec: the structural error-message tag key. -/
def errors.ERROR_MSG : String := "error.msg"

/-- Modelled from the spec: the structural error-stack tag key. -/
def errors.ERROR_STACK : String := "error.stack"

/-- An exception triple `(exc_type, exc_val, exc_tb)` as opaque strings. -/
structure ExcInfo where
  exc_type : String
  exc_val : String
  exc_tb : String
  deriving DecidableEq, Repr

/-- Modelled from the spec: the delegate span (`ddtrace.span.Span`, not among
the analysed sources).  The spec's external-interface section requires it to
expose structural fields for span-type, resource-name and a boolean error
flag, a generic get/set-tag pair, a finish accepting an optional explicit end
time, a rename operation, an exception-info recorder and a context accessor;
the adapter's own comment states the delegate's finish is idempotent, and the
spec relies on that idempotence as a backstop.  `finish_calls` counts the
invocations of the delegate's finish method, `finish_effects` counts the
times the finish effect actually happened (the idempotence latch being
`dd_finished`), and `exc_at_finish` snapshots the recorded exception info at
the moment of the effective finish, so that "recorded before finishing" is
observable in the final state. -/
structure DatadogSpan where
  name : String
  context : Option Nat
  span_type : Option Value := Option.none
  resource : Option Value := Option.none
  error : Nat := 0
  meta : KVMap := []
  exc_info : Option ExcInfo := Option.none
  dd_finished : Bool := false
  finish_calls : Nat := 0
  finish_effects : Nat := 0
  finish_time : Option Nat := Option.none
  exc_at_finish : Option ExcInfo := Option.none
  deriving DecidableEq, Repr

/-- Modelled from the spec: the delegate's generic tag write. -/
def DatadogSpan.set_tag (d : DatadogSpan) (key : String) (value : Value) : DatadogSpan :=
  { d with meta := KVMap.set d.meta key value }

/-- Modelled from the spec: the delegate's generic tag read. -/
def DatadogSpan.get_tag (d : DatadogSpan) (key : String) : Option Value :=
  KVMap.get d.meta key

/-- Modelled from the spec: the delegate's exception-info recorder. -/
def DatadogSpan.set_exc_info (d : DatadogSpan) (e : ExcInfo) : DatadogSpan :=
  { d with exc_info := some e }

/-- Modelled from the spec: the delegate's idempotent finish.  Every call is
counted in `finish_calls`; only the first effective call flips the
`dd_finished` latch, bumps `finish_effects`, records the explicit end time
passed through (or `none` for the delegate's own clock) and snapshots the
exception info recorded so far. -/
def DatadogSpan.finish (d : DatadogSpan) (finish_time : Option Nat) : DatadogSpan :=
  let d1 := { d with finish_calls := d.finish_calls + 1 }
  if d1.dd_finished then d1
  else
    { d1 with dd_finished := true,
              finish_effects := d1.finish_effects + 1,
              finish_time := finish_time,
              exc_at_finish := d1.exc_info }

/-- Modelled from the spec and the adapter's own comment ("_dd_span.__exit__
will call _span.finish() but it is idempotent"): the delegate's scoped exit
records pending exception info, then calls its own idempotent finish. -/
def DatadogSpan.scoped_exit (d : DatadogSpan) (exc : Option ExcInfo) : DatadogSpan :=
  let d1 := match exc with
    | some e => d.set_exc_info e
    | Option.none => d
  d1.finish Option.none

/-- A log record (`SpanLogRecord`): the caller-supplied mapping stored
verbatim plus a timestamp. -/
structure SpanLogRecord where
  record : KVMap
  timestamp : Nat
  deriving DecidableEq, Repr

/-- `SpanLogRecord.__init__`: `self.timestamp = timestamp or time.time()` —
a missing (or falsy, i.e. zero) timestamp argument falls back to the
capture-time clock reading `now`. -/
def SpanLogRecord.make (key_values : KVMap) (timestamp : Option Nat) (now : Nat) : SpanLogRecord :=
  { record := key_values,
    timestamp := match timestamp with
      | some t => if t = 0 then now else t
      | Option.none => now }

/-- `SpanLog`: an append-only list of records. -/
structure SpanLog where
  records : List SpanLogRecord := []
  deriving DecidableEq, Repr

/-- `SpanLog.add_record`: append a record built from the mapping and the
optional timestamp (with `now` the current clock reading). -/
def SpanLog.add_record (l : SpanLog) (key_values : KVMap) (timestamp : Option Nat) (now : Nat) : SpanLog :=
  { l with records := l.records ++ [SpanLogRecord.make key_values timestamp now] }

/-- The kind of key handed to `SpanLog.__getitem__`: a Python `int`, or one
of the non-integer kinds (string shown explicitly; `other` covers every
remaining non-integer kind, e.g. `bool`, for which `type(key) is int` is also
false). -/
inductive IndexKey where
  | int (i : Int)
  | str (s : String)
  | other
  deriving DecidableEq, Repr

/-- The two failures `SpanLog.__getitem__` can raise: the `TypeError`
("only indexing by int is currently supported") for a non-integer key, and
the `IndexError` of the underlying Python list for an out-of-range integer. -/
inductive SpanLogError where
  | invalidIndexKind
  | indexOutOfRange
  deriving DecidableEq, Repr

/-- `SpanLog.__getitem__`: integer keys index the records list with Python
semantics (a negative offset counts from the end); any other key kind raises
the `TypeError` modelled as `invalidIndexKind`. -/
def SpanLog.getItem (l : SpanLog) (key : IndexKey) : Except SpanLogError SpanLogRecord :=
  match key with
  | .int i =>
      let n : Int := l.records.length
      let j : Int := if i < 0 then i + n else i
      if 0 ≤ j ∧ j < n then
        match l.records.get? j.toNat with
        | some r => .ok r
        | Option.none => .error .indexOutOfRange
      else .error .indexOutOfRange
  | _ => .error .invalidIndexKind

/-- The adapter `Span`.  The Python object's mutable attributes become the
fields of this state; the `threading.Lock` attribute guards only the
`_context` reference swap in `set_baggage_item` and is therefore not part of
the sequential state (the interleaved model `BaggageWriter` below reproduces
its granularity). -/
structure Span where
  _context : SpanContext
  _dd_span : DatadogSpan
  log : SpanLog
  finished : Bool
  deriving DecidableEq, Repr

/-- The `context` property inherited from the opentracing base class: it
returns `self._context`. -/
def Span.context (s : Span) : SpanContext := s._context

/-- `Span.__init__`: when a parent context is given, the new context is built
from the parent's underlying context reference and its baggage (the spec:
a copy — copy-on-write applies from here on); otherwise a fresh empty
context.  A new delegate span is allocated immediately, bound to the
context's underlying reference and the operation name.  The tracer handle is
opaque to every property proved here and is dropped. -/
def Span.create (context : Option SpanContext) (operation_name : String) : Span :=
  let ctx : SpanContext := match context with
    | some c => { _dd_context := c._dd_context, baggage := c.baggage }
    | Option.none => {}
  { _context := ctx,
    _dd_span := { name := operation_name, context := ctx._dd_context },
    log := {},
    finished := false }

/-- `Span.finish`: if the `finished` latch is already set, return immediately
with no side effects; otherwise finish the delegate span (passing the
optional explicit end time through) and set the latch. -/
def Span.finish (s : Span) (finish_time : Option Nat) : Span :=
  if s.finished then s
  else { s with _dd_span := s._dd_span.finish finish_time, finished := true }

/-- `Span.set_tag`: route by key — the reserved span-kind/type key writes the
delegate's structural span-type field, the reserved HTTP-URL and
database-statement keys write the delegate's structural resource field, and
every other key is forwarded to the delegate's generic set_tag. -/
def Span.set_tag (s : Span) (key : String) (value : Value) : Span :=
  if key = OTTags.SPAN_TYPE then
    { s with _dd_span := { s._dd_span with span_type := some value } }
  else if key = OTTags.HTTP_URL ∨ key = OTTags.DB_STATEMENT then
    { s with _dd_span := { s._dd_span with resource := some value } }
  else
    { s with _dd_span := s._dd_span.set_tag key value }

/-- `Span._get_tag`: read a tag back from the delegate span. -/
def Span._get_tag (s : Span) (key : String) : Option Value :=
  s._dd_span.get_tag key

/-- `Span.set_baggage_item`: compute the new context by copy-on-write from
the current one, mirror the key/value through `set_tag`, then swap the
context reference (in the code, only this swap happens under the lock).
Returns the span itself (in this state-passing embedding, the updated
state). -/
def Span.set_baggage_item (s : Span) (key : String) (value : Value) : Span :=
  let new_ctx := s.context.with_baggage_item key value
  let s1 := s.set_tag key value
  { s1 with _context := new_ctx }

/-- `Span.get_baggage_item`: read from the current context. -/
def Span.get_baggage_item (s : Span) (key : String) : Option Value :=
  s.context.get_baggage_item key

/-- `Span.set_operation_name`: rename the delegate span. -/
def Span.set_operation_name (s : Span) (operation_name : String) : Span :=
  { s with _dd_span := { s._dd_span with name := operation_name } }

/-- One iteration of the `log_kv` translation loop, for a single key/value
pair: `event`/`"error"` sets the delegate's error flag and a generic
`"error"` tag to 1; `error` or `error.object` sets the structural error-type
tag; `message` the structural error-message tag; `stack` the structural
error-stack tag; anything else passes. -/
def Span.log_kv_step (s : Span) (key : String) (val : Value) : Span :=
  if key = "event" ∧ val = Value.str "error" then
    let s1 := { s with _dd_span := { s._dd_span with error := 1 } }
    s1.set_tag "error" (Value.int 1)
  else if key = "error" ∨ key = "error.object" then
    s.set_tag errors.ERROR_TYPE val
  else if key = "message" then
    s.set_tag errors.ERROR_MSG val
  else if key = "stack" then
    s.set_tag errors.ERROR_STACK val
  else s

/-- `Span.log_kv`: first append the full mapping to the log unconditionally,
then run the translation loop over the pairs in order.  Returns the span
itself (here, the updated state). -/
def Span.log_kv (s : Span) (key_values : KVMap) (timestamp : Option Nat) (now : Nat) : Span :=
  let s1 := { s with log := s.log.add_record key_values timestamp now }
  key_values.foldl (fun sp kv => sp.log_kv_step kv.1 kv.2) s1

/-- `Span.__enter__`: returns self. -/
def Span.enter (s : Span) : Span := s

/-- `Span.__exit__`: when an exception is pending, record its
type/value/traceback on the delegate; then run the delegate's scoped exit
(which calls the delegate's idempotent finish) and finally the adapter's own
`finish()`. -/
def Span.exit (s : Span) (exc : Option ExcInfo) : Span :=
  let s1 := match exc with
    | some e => { s with _dd_span := s._dd_span.set_exc_info e }
    | Option.none => s
  let s2 := { s1 with _dd_span := s1._dd_span.scoped_exit exc }
  s2.finish Option.none

/-- One call of any public mutating adapter operation, for stating
whole-interface invariants. -/
inductive Op where
  | finishOp (finish_time : Option Nat)
  | setTagOp (key : String) (value : Value)
  | logKvOp (key_values : KVMap) (timestamp : Option Nat) (now : Nat)
  | setBaggageOp (key : String) (value : Value)
  | setOpNameOp (operation_name : String)
  deriving DecidableEq, Repr

/-- Apply one adapter operation to the span state. -/
def Span.applyOp (s : Span) : Op → Span
  | .finishOp t => s.finish t
  | .setTagOp k v => s.set_tag k v
  | .logKvOp kvs ts now => s.log_kv kvs ts now
  | .setBaggageOp k v => s.set_baggage_item k v
  | .setOpNameOp n => s.set_operation_name n

/-- Apply a sequence of adapter operations from left to right. -/
def Span.runOps (s : Span) (ops : List Op) : Span :=
  ops.foldl Span.applyOp s

/-- Apply a sequence of `finish` calls (each with its optional explicit end
time) from left to right. -/
def Span.finishSeq (s : Span) (ts : List (Option Nat)) : Span :=
  ts.foldl Span.finish s

/-- One in-flight `set_baggage_item` call, split at the code's actual
atomicity boundary: the read of `self.context`, the copy-on-write
construction of the new context and the `set_tag` mirror all happen OUTSIDE
the lock; only the assignment `self._context = new_ctx` is performed under
the lock.  `pending` holds the new context computed in the first phase and
awaiting the swap. -/
structure BaggageWriter where
  key : String
  value : Value
  pending : Option SpanContext := Option.none
  done : Bool := false
  deriving DecidableEq, Repr

/-- Execute the next atomic phase of one writer against the shared span
state: phase 1 reads the current context, computes the new context and sets
the mirror tag; phase 2 swaps the context reference. -/
def BaggageWriter.step (shared : Span) (w : BaggageWriter) : Span × BaggageWriter :=
  if w.done then (shared, w)
  else
    match w.pending with
    | Option.none =>
        let new_ctx := shared.context.with_baggage_item w.key w.value
        (shared.set_tag w.key w.value, { w with pending := some new_ctx })
    | some ctx =>
        ({ shared with _context := ctx }, { w with pending := Option.none, done := true })

/-- Two concurrent `set_baggage_item` callers sharing one span. -/
structure TwoWriters where
  span : Span
  w1 : BaggageWriter
  w2 : BaggageWriter
  deriving DecidableEq, Repr

/-- Run one scheduled step: `false` steps writer 1, `true` steps writer 2. -/
def TwoWriters.step (st : TwoWriters) (pick2 : Bool) : TwoWriters :=
  if pick2 then
    let p := BaggageWriter.step st.span st.w2
    { st with span := p.1, w2 := p.2 }
  else
    let p := BaggageWriter.step st.span st.w1
    { st with span := p.1, w1 := p.2 }

/-- Run a whole schedule of interleaved steps. -/
def TwoWriters.run (st : TwoWriters) (sched : List Bool) : TwoWriters :=
  sched.foldl TwoWriters.step st

/-- A concrete span used by the closed witness statements. -/
def exSpan : Span := Span.create Option.none "example.op"

/-- A concrete log holding three records, for the closed witness statements. -/
def exLog : SpanLog :=
  ((({} : SpanLog).add_record [("a", Value.int 1)] Option.none 1).add_record
      [("b", Value.int 2)] (some 7) 2).add_record
    [("c", Value.int 3)] Option.none 3

/-- Two concurrent `set_baggage_item` callers with distinct keys, starting
from a fresh span with empty baggage. -/
def lostUpdateInit : TwoWriters :=
  { span := exSpan,
    w1 := { key := "k1", value := Value.int 1 },
    w2 := { key := "k2", value := Value.int 2 } }

/-- A concrete exception triple for the closed witness statements. -/
def exExc : ExcInfo :=
  { exc_type := "ValueError", exc_val := "boom", exc_tb := "tb" }

end DDTrace

namespace DDTrace

/-! ## Helper lemmas -/

/-- A finished span's `finish` returns it unchanged. -/
theorem Span.finish_of_finished (s : Span) (t : Option Nat) (h : s.finished = true) :
    s.finish t = s := by
  simp [Span.finish, h]

/-- A whole sequence of `finish` calls on a finished span returns it
unchanged. -/
theorem Span.finishSeq_of_finished (s : Span) (ts : List (Option Nat)) (h : s.finished = true) :
    s.finishSeq ts = s := by
  induction ts with
  | nil => rfl
  | cons t rest ih =>
      show (s.finish t).finishSeq rest = s
      rw [Span.finish_of_finished s t h]
      exact ih

/-- Every call of the delegate's finish bumps the invocation counter by
exactly one. -/
theorem DatadogSpan.finish_calls_succ (d : DatadogSpan) (t : Option Nat) :
    (d.finish t).finish_calls = d.finish_calls + 1 := by
  simp only [DatadogSpan.finish]
  split <;> rfl

/-- C1: `Span.finish` is idempotent: a finished span's `finish` (with or
without an explicit end time) returns immediately with no side effects, and
across any sequence of `finish` calls starting from an unfinished span whose
delegate has never been finished, the delegate's finish is invoked at most
once. -/
theorem C1_finish_idempotent :
    (∀ (s : Span) (t : Option Nat), s.finished = true → s.finish t = s) ∧
    (∀ (s : Span) (ts : List (Option Nat)),
        s.finished = false → s._dd_span.finish_calls = 0 →
        (s.finishSeq ts)._dd_span.finish_calls ≤ 1) := by
  refine ⟨fun s t h => Span.finish_of_finished s t h, ?_⟩
  intro s ts hf hc
  cases ts with
  | nil => simpa [Span.finishSeq] using Nat.le_of_eq hc |>.trans (Nat.le_succ 0)
  | cons t rest =>
      have h1 : (s.finish t).finished = true := by
        simp [Span.finish, hf]
      have h2 : (s.finish t)._dd_span.finish_calls = 1 := by
        simp [Span.finish, hf, DatadogSpan.finish_calls_succ, hc]
      have hseq : (s.finish t).finishSeq rest = s.finish t :=
        Span.finishSeq_of_finished _ rest h1
      show ((s.finish t).finishSeq rest)._dd_span.finish_calls ≤ 1
      rw [hseq, h2]

/-- C1 witness: on a concrete span, a second `finish` is a no-op and a
three-call sequence invokes the delegate's finish exactly once. -/
theorem C1_finish_idempotent_witness :
    ((exSpan.finish Option.none).finish (some 5) = exSpan.finish Option.none) ∧
    (exSpan.finishSeq [Option.none, some 5, Option.none])._dd_span.finish_calls ≤ 1 :=
  ⟨C1_finish_idempotent.1 _ _ (by decide),
   C1_finish_idempotent.2 exSpan _ (by decide) (by decide)⟩

/-- A successful lookup at `i` means `i` is within the list. -/
theorem getq_lt_length {α : Type} (l : List α) (i : Nat) (r : α)
    (hget : l.get? i = some r) : i < l.length := by
  by_contra hcon
  push_neg at hcon
  rw [List.get?_eq_none.mpr hcon] at hget
  exact Option.noConfusion hget

/-- `SpanLog.getItem` at a non-negative integer offset returns exactly the
list element at that offset. -/
theorem SpanLog.getItem_int_nonneg (l : SpanLog) (i : Int) (r : SpanLogRecord)
    (h0 : 0 ≤ i) (hget : l.records.get? i.toNat = some r) :
    l.getItem (.int i) = .ok r := by
  have hlen : i.toNat < l.records.length := getq_lt_length _ _ _ hget
  have hneg : ¬ i < 0 := not_lt.mpr h0
  simp only [SpanLog.getItem, hneg, if_false]
  rw [if_pos ⟨h0, by omega⟩, hget]

/-- `SpanLog.getItem` at a negative integer offset counts from the end of the
list, Python style. -/
theorem SpanLog.getItem_int_neg (l : SpanLog) (i : Int) (r : SpanLogRecord)
    (hneg : i < 0) (hge : 0 ≤ i + (l.records.length : Int))
    (hget : l.records.get? (i + (l.records.length : Int)).toNat = some r) :
    l.getItem (.int i) = .ok r := by
  have hlen : (i + (l.records.length : Int)).toNat < l.records.length :=
    getq_lt_length _ _ _ hget
  simp only [SpanLog.getItem, hneg, if_true]
  rw [if_pos ⟨hge, by omega⟩, hget]

/-- C7: the log is an ordered append-only sequence: each append grows the
length by one (an empty log has length zero), non-negative and negative
integer offsets index the records with Python list semantics — `log[0]` is
the first appended record and `log[-1]` the last — and any non-integer key
fails with the invalid-index-kind error. -/
theorem C7_spanlog_indexing :
    (∀ (l : SpanLog) (kv : KVMap) (ts : Option Nat) (now : Nat),
        (l.add_record kv ts now).records.length = l.records.length + 1) ∧
    (({} : SpanLog).records.length = 0) ∧
    (∀ (l : SpanLog) (i : Int) (r : SpanLogRecord), 0 ≤ i →
        l.records.get? i.toNat = some r → l.getItem (.int i) = .ok r) ∧
    (∀ (l : SpanLog) (i : Int) (r : SpanLogRecord), i < 0 →
        0 ≤ i + (l.records.length : Int) →
        l.records.get? (i + (l.records.length : Int)).toNat = some r →
        l.getItem (.int i) = .ok r) ∧
    (∀ (l : SpanLog) (h : l.records ≠ []), l.getItem (.int 0) = .ok (l.records.head h)) ∧
    (∀ (l : SpanLog) (h : l.records ≠ []),
        l.getItem (.int (-1)) = .ok (l.records.getLast h)) ∧
    (∀ (l : SpanLog) (s : String), l.getItem (.str s) = .error .invalidIndexKind) ∧
    (∀ (l : SpanLog), l.getItem .other = .error .invalidIndexKind) := by
  refine ⟨?_, rfl, ?_, ?_, ?_, ?_, fun l s => rfl, fun l => rfl⟩
  · intro l kv ts now
    simp [SpanLog.add_record]
  · exact fun l i r h0 hget => SpanLog.getItem_int_nonneg l i r h0 hget
  · exact fun l i r hneg hge hget => SpanLog.getItem_int_neg l i r hneg hge hget
  · intro l h
    apply SpanLog.getItem_int_nonneg l 0 _ le_rfl
    rw [Int.toNat_zero, List.get?_zero, List.head?_eq_head h]
  · intro l h
    apply SpanLog.getItem_int_neg l (-1) _ (by decide)
    · have : 0 < l.records.length := List.length_pos.mpr h
      omega
    · have hlen : 0 < l.records.length := List.length_pos.mpr h
      have htn : ((-1 : Int) + (l.records.length : Int)).toNat = l.records.length - 1 := by
        omega
      rw [htn, ← List.getLast?_eq_get?, List.getLast?_eq_getLast l.records h]

/-- C7 witness: on a concrete three-record log, the length is three, `log[0]`
and `log[-1]` are the first and last records, integer offsets 1 and -2 both
reach the middle record, and a string key fails with the invalid-index-kind
error. -/
theorem C7_spanlog_indexing_witness :
    exLog.records.length = 3 ∧
    exLog.getItem (.int 0) = .ok (exLog.records.head (by decide)) ∧
    exLog.getItem (.int (-1)) = .ok (exLog.records.getLast (by decide)) ∧
    exLog.getItem (.int 1) = .ok (SpanLogRecord.make [("b", Value.int 2)] (some 7) 2) ∧
    exLog.getItem (.int (-2)) = .ok (SpanLogRecord.make [("b", Value.int 2)] (some 7) 2) ∧
    exLog.getItem (.str "x") = .error .invalidIndexKind :=
  ⟨by decide,
   C7_spanlog_indexing.2.2.2.2.1 exLog (by decide),
   C7_spanlog_indexing.2.2.2.2.2.1 exLog (by decide),
   C7_spanlog_indexing.2.2.1 exLog 1 _ (by decide) (by decide),
   C7_spanlog_indexing.2.2.2.1 exLog (-2) _ (by decide) (by decide) (by decide),
   C7_spanlog_indexing.2.2.2.2.2.2.1 exLog "x"⟩

/-- C2: `set_tag` routes each write by key: the reserved span-kind/type key
writes the delegate's structural span-type field and leaves the generic tag
mapping untouched, the reserved HTTP-URL and database-statement keys write
the delegate's structural resource field and leave the generic tag mapping
untouched, and every other key lands as a generic tag while both structural
fields are untouched. -/
theorem C2_set_tag_routing :
    (∀ (s : Span) (v : Value),
        (s.set_tag OTTags.SPAN_TYPE v)._dd_span.span_type = some v ∧
        (s.set_tag OTTags.SPAN_TYPE v)._dd_span.meta = s._dd_span.meta ∧
        (s.set_tag OTTags.SPAN_TYPE v)._dd_span.resource = s._dd_span.resource) ∧
    (∀ (s : Span) (v : Value),
        (s.set_tag OTTags.HTTP_URL v)._dd_span.resource = some v ∧
        (s.set_tag OTTags.HTTP_URL v)._dd_span.meta = s._dd_span.meta ∧
        (s.set_tag OTTags.HTTP_URL v)._dd_span.span_type = s._dd_span.span_type) ∧
    (∀ (s : Span) (v : Value),
        (s.set_tag OTTags.DB_STATEMENT v)._dd_span.resource = some v ∧
        (s.set_tag OTTags.DB_STATEMENT v)._dd_span.meta = s._dd_span.meta ∧
        (s.set_tag OTTags.DB_STATEMENT v)._dd_span.span_type = s._dd_span.span_type) ∧
    (∀ (s : Span) (k : String) (v : Value),
        k ≠ OTTags.SPAN_TYPE → k ≠ OTTags.HTTP_URL → k ≠ OTTags.DB_STATEMENT →
        (s.set_tag k v)._dd_span.meta = KVMap.set s._dd_span.meta k v ∧
        (s.set_tag k v)._dd_span.span_type = s._dd_span.span_type ∧
        (s.set_tag k v)._dd_span.resource = s._dd_span.resource) := by
  refine ⟨?_, ?_, ?_, ?_⟩
  · intro s v
    simp [Span.set_tag, OTTags.SPAN_TYPE, OTTags.HTTP_URL, OTTags.DB_STATEMENT]
  · intro s v
    simp [Span.set_tag, OTTags.SPAN_TYPE, OTTags.HTTP_URL, OTTags.DB_STATEMENT]
  · intro s v
    simp [Span.set_tag, OTTags.SPAN_TYPE, OTTags.HTTP_URL, OTTags.DB_STATEMENT]
  · intro s k v h1 h2 h3
    simp [Span.set_tag, DatadogSpan.set_tag, h1, h2, h3]

/-- C2 witness: the three routes on a concrete span. -/
theorem C2_set_tag_routing_witness :
    (exSpan.set_tag OTTags.SPAN_TYPE (Value.str "client"))._dd_span.span_type
      = some (Value.str "client") ∧
    (exSpan.set_tag OTTags.HTTP_URL (Value.str "http://x"))._dd_span.resource
      = some (Value.str "http://x") ∧
    (exSpan.set_tag "custom.key" (Value.int 42))._dd_span.meta
      = KVMap.set exSpan._dd_span.meta "custom.key" (Value.int 42) :=
  ⟨(C2_set_tag_routing.1 exSpan (Value.str "client")).1,
   (C2_set_tag_routing.2.1 exSpan (Value.str "http://x")).1,
   (C2_set_tag_routing.2.2.2 exSpan "custom.key" (Value.int 42)
      (by decide) (by decide) (by decide)).1⟩

/-- `set_tag` never touches the `finished` latch. -/
theorem Span.set_tag_finished (s : Span) (k : String) (v : Value) :
    (s.set_tag k v).finished = s.finished := by
  unfold Span.set_tag
  split
  · rfl
  · split <;> rfl

/-- `set_tag` never touches the log. -/
theorem Span.set_tag_log (s : Span) (k : String) (v : Value) :
    (s.set_tag k v).log = s.log := by
  unfold Span.set_tag
  split
  · rfl
  · split <;> rfl

/-- One translation step of `log_kv` never touches the `finished` latch. -/
theorem Span.log_kv_step_finished (s : Span) (k : String) (v : Value) :
    (s.log_kv_step k v).finished = s.finished := by
  unfold Span.log_kv_step
  split
  · rw [Span.set_tag_finished]
  · split
    · rw [Span.set_tag_finished]
    · split
      · rw [Span.set_tag_finished]
      · split
        · rw [Span.set_tag_finished]
        · rfl

/-- The whole translation loop of `log_kv` never touches the `finished`
latch. -/
theorem Span.log_kv_fold_finished (kvs : KVMap) (s : Span) :
    (kvs.foldl (fun sp kv => sp.log_kv_step kv.1 kv.2) s).finished = s.finished := by
  induction kvs generalizing s with
  | nil => rfl
  | cons kv rest ih => rw [List.foldl_cons, ih, Span.log_kv_step_finished]

/-- `log_kv` never touches the `finished` latch. -/
theorem Span.log_kv_finished (s : Span) (kvs : KVMap) (ts : Option Nat) (now : Nat) :
    (s.log_kv kvs ts now).finished = s.finished := by
  unfold Span.log_kv
  rw [Span.log_kv_fold_finished]

/-- `set_baggage_item` never touches the `finished` latch. -/
theorem Span.set_baggage_item_finished (s : Span) (k : String) (v : Value) :
    (s.set_baggage_item k v).finished = s.finished := by
  unfold Span.set_baggage_item
  show (s.set_tag k v).finished = s.finished
  exact Span.set_tag_finished s k v

/-- C5 counterexample: the claim fails on the code — after `finish`, a plain
`set_tag` still changes the delegate span's recorded state through this
adapter (nothing but `finish` itself consults the `finished` latch). -/
theorem C5_counterexample :
    ((exSpan.finish Option.none).set_tag "custom.key" (Value.int 42))._dd_span ≠
      (exSpan.finish Option.none)._dd_span := by decide

/-- C5 as amended: the `finished` latch transitions false→true exactly once —
`finish` on an unfinished span sets it, `finish` on a finished span returns
it unchanged (so no later call re-fires the delegate), and no other adapter
operation ever writes the latch; however the other operations are not
guarded by the latch: a post-finish `set_tag` (and hence `log_kv` and
`set_baggage_item`, which route through it) still changes the delegate's
recorded state through this adapter. -/
theorem C5_finished_latch_amended :
    (∀ (s : Span) (t : Option Nat), s.finished = false → (s.finish t).finished = true) ∧
    (∀ (s : Span) (t : Option Nat), s.finished = true → s.finish t = s) ∧
    (∀ (s : Span) (op : Op), (∀ t, op ≠ .finishOp t) →
        (s.applyOp op).finished = s.finished) ∧
    (∃ (s : Span) (k : String) (v : Value),
        s.finished = true ∧ (s.set_tag k v)._dd_span ≠ s._dd_span) := by
  refine ⟨?_, fun s t h => Span.finish_of_finished s t h, ?_, ?_⟩
  · intro s t h
    simp [Span.finish, h]
  · intro s op hop
    cases op with
    | finishOp t => exact absurd rfl (hop t)
    | setTagOp k v => exact Span.set_tag_finished s k v
    | logKvOp kvs ts now => exact Span.log_kv_finished s kvs ts now
    | setBaggageOp k v => exact Span.set_baggage_item_finished s k v
    | setOpNameOp n => rfl
  · exact ⟨exSpan.finish Option.none, "custom.key", Value.int 42, by decide, by decide⟩

/-- C5 witness: the amended latch behaviour on a concrete span: an unfinished
span's `finish` sets the latch, a finished span's `finish` is the identity,
and a non-finish operation leaves the latch alone. -/
theorem C5_finished_latch_amended_witness :
    (exSpan.finish (some 3)).finished = true ∧
    ((exSpan.finish (some 3)).finish Option.none = exSpan.finish (some 3)) ∧
    (exSpan.applyOp (.setTagOp "a" (Value.int 1))).finished = exSpan.finished :=
  ⟨C5_finished_latch_amended.1 exSpan (some 3) (by decide),
   C5_finished_latch_amended.2.1 _ Option.none (by decide),
   C5_finished_latch_amended.2.2.1 exSpan (.setTagOp "a" (Value.int 1))
     (fun t h => nomatch h)⟩

/-- One translation step of `log_kv` never touches the log. -/
theorem Span.log_kv_step_log (s : Span) (k : String) (v : Value) :
    (s.log_kv_step k v).log = s.log := by
  unfold Span.log_kv_step
  split
  · rw [Span.set_tag_log]
  · split
    · rw [Span.set_tag_log]
    · split
      · rw [Span.set_tag_log]
      · split
        · rw [Span.set_tag_log]
        · rfl

/-- The whole translation loop of `log_kv` never touches the log. -/
theorem Span.log_kv_fold_log (kvs : KVMap) (s : Span) :
    (kvs.foldl (fun sp kv => sp.log_kv_step kv.1 kv.2) s).log = s.log := by
  induction kvs generalizing s with
  | nil => rfl
  | cons kv rest ih => rw [List.foldl_cons, ih, Span.log_kv_step_log]

/-- C3: `log_kv` first appends the full mapping to the log unconditionally
(the record is built verbatim from the mapping); then, per key/value pair,
exactly one rule applies — `event`/`"error"` sets the delegate's error flag
and a generic `"error"` tag to 1 (an `event` with any other value mirrors
nothing), `error` or `error.object` sets the structural error-type tag,
`message` the structural error-message tag, `stack` the structural
error-stack tag, and any other key mirrors nothing.  The adapter returns the
span itself, which in this state-passing embedding is the updated state the
theorem speaks about. -/
theorem C3_log_kv_translation :
    (∀ (s : Span) (kvs : KVMap) (ts : Option Nat) (now : Nat),
        (s.log_kv kvs ts now).log.records
          = s.log.records ++ [SpanLogRecord.make kvs ts now]) ∧
    (∀ (s : Span) (ts : Option Nat) (now : Nat),
        (s.log_kv [("event", Value.str "error")] ts now)._dd_span.error = 1 ∧
        (s.log_kv [("event", Value.str "error")] ts now)._dd_span.meta
          = KVMap.set s._dd_span.meta "error" (Value.int 1)) ∧
    (∀ (s : Span) (v : Value) (ts : Option Nat) (now : Nat), v ≠ Value.str "error" →
        (s.log_kv [("event", v)] ts now)._dd_span = s._dd_span) ∧
    (∀ (s : Span) (k : String) (v : Value) (ts : Option Nat) (now : Nat),
        k = "error" ∨ k = "error.object" →
        (s.log_kv [(k, v)] ts now)._dd_span.meta
          = KVMap.set s._dd_span.meta errors.ERROR_TYPE v) ∧
    (∀ (s : Span) (v : Value) (ts : Option Nat) (now : Nat),
        (s.log_kv [("message", v)] ts now)._dd_span.meta
          = KVMap.set s._dd_span.meta errors.ERROR_MSG v) ∧
    (∀ (s : Span) (v : Value) (ts : Option Nat) (now : Nat),
        (s.log_kv [("stack", v)] ts now)._dd_span.meta
          = KVMap.set s._dd_span.meta errors.ERROR_STACK v) ∧
    (∀ (s : Span) (k : String) (v : Value) (ts : Option Nat) (now : Nat),
        k ≠ "event" → k ≠ "error" → k ≠ "error.object" → k ≠ "message" → k ≠ "stack" →
        (s.log_kv [(k, v)] ts now)._dd_span = s._dd_span) := by
  refine ⟨?_, ?_, ?_, ?_, ?_, ?_, ?_⟩
  · intro s kvs ts now
    unfold Span.log_kv
    rw [Span.log_kv_fold_log]
    simp [SpanLog.add_record]
  · intro s ts now
    constructor <;>
      simp [Span.log_kv, Span.log_kv_step, Span.set_tag, DatadogSpan.set_tag,
            OTTags.SPAN_TYPE, OTTags.HTTP_URL, OTTags.DB_STATEMENT]
  · intro s v ts now hv
    simp [Span.log_kv, Span.log_kv_step, hv]
  · intro s k v ts now hk
    rcases hk with rfl | rfl <;>
      simp [Span.log_kv, Span.log_kv_step, Span.set_tag, DatadogSpan.set_tag,
            OTTags.SPAN_TYPE, OTTags.HTTP_URL, OTTags.DB_STATEMENT, errors.ERROR_TYPE]
  · intro s v ts now
    simp [Span.log_kv, Span.log_kv_step, Span.set_tag, DatadogSpan.set_tag,
          OTTags.SPAN_TYPE, OTTags.HTTP_URL, OTTags.DB_STATEMENT, errors.ERROR_MSG]
  · intro s v ts now
    simp [Span.log_kv, Span.log_kv_step, Span.set_tag, DatadogSpan.set_tag,
          OTTags.SPAN_TYPE, OTTags.HTTP_URL, OTTags.DB_STATEMENT, errors.ERROR_STACK]
  · intro s k v ts now h1 h2 h3 h4 h5
    simp [Span.log_kv, Span.log_kv_step, h1, h2, h3, h4, h5]

/-- C3 witness: the translation rules on a concrete span: an error event
sets the error flag, an `error.object` entry lands on the structural
error-type tag, a `message` entry on the structural error-message tag, an
unknown key mirrors nothing, and in each case the full mapping is appended
to the log. -/
theorem C3_log_kv_translation_witness :
    (exSpan.log_kv [("custom", Value.int 9)] Option.none 4).log.records
      = exSpan.log.records ++ [SpanLogRecord.make [("custom", Value.int 9)] Option.none 4] ∧
    (exSpan.log_kv [("event", Value.str "error")] Option.none 4)._dd_span.error = 1 ∧
    (exSpan.log_kv [("event", Value.str "warning")] Option.none 4)._dd_span
      = exSpan._dd_span ∧
    (exSpan.log_kv [("error.object", Value.str "boom")] Option.none 4)._dd_span.meta
      = KVMap.set exSpan._dd_span.meta errors.ERROR_TYPE (Value.str "boom") ∧
    (exSpan.log_kv [("message", Value.str "oops")] Option.none 4)._dd_span.meta
      = KVMap.set exSpan._dd_span.meta errors.ERROR_MSG (Value.str "oops") ∧
    (exSpan.log_kv [("custom", Value.int 9)] Option.none 4)._dd_span = exSpan._dd_span :=
  ⟨C3_log_kv_translation.1 exSpan _ Option.none 4,
   (C3_log_kv_translation.2.1 exSpan Option.none 4).1,
   C3_log_kv_translation.2.2.1 exSpan (Value.str "warning") Option.none 4 (by decide),
   C3_log_kv_translation.2.2.2.1 exSpan "error.object" (Value.str "boom") Option.none 4
     (Or.inr rfl),
   C3_log_kv_translation.2.2.2.2.1 exSpan (Value.str "oops") Option.none 4,
   C3_log_kv_translation.2.2.2.2.2.2 exSpan "custom" (Value.int 9) Option.none 4
     (by decide) (by decide) (by decide) (by decide) (by decide)⟩

/-- C4: baggage updates are copy-on-write: `set_baggage_item` installs as the
span's context exactly `with_baggage_item` of the previous context — a new
value whose baggage is the previous baggage with the key set and whose
underlying context reference is carried through unchanged — and
`with_baggage_item` itself is a pure function of the receiver, so a
previously captured context value is untouched; the closing conjunct replays
the spec's own scenario, the captured old context still reporting exactly
the old baggage after the update. -/
theorem C4_baggage_copy_on_write :
    (∀ (s : Span) (k : String) (v : Value),
        (s.set_baggage_item k v)._context = s._context.with_baggage_item k v ∧
        (s.set_baggage_item k v)._context._dd_context = s._context._dd_context ∧
        (s.set_baggage_item k v)._context.baggage = KVMap.set s._context.baggage k v) ∧
    (∀ (c : SpanContext) (k : String) (v : Value),
        (c.with_baggage_item k v)._dd_context = c._dd_context ∧
        (c.with_baggage_item k v).baggage = KVMap.set c.baggage k v) ∧
    ((exSpan.set_baggage_item "a" (Value.int 1)).context.get_baggage_item "a"
        = some (Value.int 1) ∧
     (exSpan.set_baggage_item "a" (Value.int 1)).context.get_baggage_item "b"
        = Option.none ∧
     ((exSpan.set_baggage_item "a" (Value.int 1)).set_baggage_item "b"
          (Value.int 2)).context.get_baggage_item "a" = some (Value.int 1) ∧
     ((exSpan.set_baggage_item "a" (Value.int 1)).set_baggage_item "b"
          (Value.int 2)).context.get_baggage_item "b" = some (Value.int 2)) := by
  refine ⟨?_, fun c k v => ⟨rfl, rfl⟩, by decide⟩
  intro s k v
  refine ⟨rfl, rfl, rfl⟩

/-- C8: a child span built from a parent context starts from the parent's
underlying context reference and the parent's baggage, so the two initially
read the same; a subsequent baggage write on the child derives a fresh
context purely from that copy (the parent context value being a pure value,
it is not written through); the closing conjunct replays the spec's
scenario, the parent's baggage not containing the child's added key. -/
theorem C8_child_context_clone :
    (∀ (parent : SpanContext) (op : String),
        (Span.create (some parent) op)._context.baggage = parent.baggage ∧
        (Span.create (some parent) op)._context._dd_context = parent._dd_context ∧
        (∀ (j : String),
            (Span.create (some parent) op).get_baggage_item j
              = parent.get_baggage_item j)) ∧
    (∀ (parent : SpanContext) (op : String) (k : String) (v : Value),
        ((Span.create (some parent) op).set_baggage_item k v)._context.baggage
          = KVMap.set parent.baggage k v) ∧
    (((Span.create
          (some { _dd_context := some 7, baggage := [("x", Value.str "y")] })
          "child.op").get_baggage_item "x" = some (Value.str "y")) ∧
     (((Span.create
          (some { _dd_context := some 7, baggage := [("x", Value.str "y")] })
          "child.op").set_baggage_item "z" (Value.str "w")).get_baggage_item "z"
        = some (Value.str "w")) ∧
     (SpanContext.get_baggage_item
          { _dd_context := some 7, baggage := [("x", Value.str "y")] } "z"
        = Option.none)) := by
  refine ⟨fun parent op => ⟨rfl, rfl, fun j => rfl⟩, fun parent op k v => rfl, by decide⟩

/-- C9 counterexample: the claim fails on the code for a reserved key — the
baggage mirror goes through `set_tag`, whose routing sends the reserved
HTTP-URL key to the delegate's structural resource field, so no generic tag
for that key is recorded (`meta` stays empty). -/
theorem C9_counterexample :
    KVMap.get ((exSpan.set_baggage_item OTTags.HTTP_URL
        (Value.str "http://x"))._dd_span.meta) OTTags.HTTP_URL = Option.none ∧
    (exSpan.set_baggage_item OTTags.HTTP_URL (Value.str "http://x"))._dd_span.resource
      = some (Value.str "http://x") := by decide

/-- C9 as amended: `set_baggage_item` mirrors the key/value through
`set_tag`, so a non-reserved key lands as a generic tag on the delegate
while the reserved keys are routed to the structural span-type/resource
fields; in every case the context's baggage is updated with the same
key/value, and the call returns the span itself (in this state-passing
embedding, the updated state the theorem speaks about). -/
theorem C9_baggage_mirror_amended :
    (∀ (s : Span) (k : String) (v : Value),
        k ≠ OTTags.SPAN_TYPE → k ≠ OTTags.HTTP_URL → k ≠ OTTags.DB_STATEMENT →
        (s.set_baggage_item k v)._dd_span.meta = KVMap.set s._dd_span.meta k v) ∧
    (∀ (s : Span) (v : Value),
        (s.set_baggage_item OTTags.SPAN_TYPE v)._dd_span.span_type = some v ∧
        (s.set_baggage_item OTTags.SPAN_TYPE v)._dd_span.meta = s._dd_span.meta) ∧
    (∀ (s : Span) (v : Value),
        (s.set_baggage_item OTTags.HTTP_URL v)._dd_span.resource = some v ∧
        (s.set_baggage_item OTTags.HTTP_URL v)._dd_span.meta = s._dd_span.meta) ∧
    (∀ (s : Span) (v : Value),
        (s.set_baggage_item OTTags.DB_STATEMENT v)._dd_span.resource = some v ∧
        (s.set_baggage_item OTTags.DB_STATEMENT v)._dd_span.meta = s._dd_span.meta) ∧
    (∀ (s : Span) (k : String) (v : Value),
        (s.set_baggage_item k v)._context.baggage = KVMap.set s._context.baggage k v) := by
  refine ⟨?_, ?_, ?_, ?_, fun s k v => rfl⟩
  · intro s k v h1 h2 h3
    show (s.set_tag k v)._dd_span.meta = KVMap.set s._dd_span.meta k v
    simp [Span.set_tag, DatadogSpan.set_tag, h1, h2, h3]
  · intro s v
    constructor <;>
      simp [Span.set_baggage_item, Span.set_tag,
            OTTags.SPAN_TYPE, OTTags.HTTP_URL, OTTags.DB_STATEMENT]
  · intro s v
    constructor <;>
      simp [Span.set_baggage_item, Span.set_tag,
            OTTags.SPAN_TYPE, OTTags.HTTP_URL, OTTags.DB_STATEMENT]
  · intro s v
    constructor <;>
      simp [Span.set_baggage_item, Span.set_tag,
            OTTags.SPAN_TYPE, OTTags.HTTP_URL, OTTags.DB_STATEMENT]

/-- C9 witness: on a concrete span, a non-reserved baggage key is mirrored
as a generic tag and recorded in the baggage. -/
theorem C9_baggage_mirror_amended_witness :
    (exSpan.set_baggage_item "custom.key" (Value.int 42))._dd_span.meta
      = KVMap.set exSpan._dd_span.meta "custom.key" (Value.int 42) ∧
    (exSpan.set_baggage_item "custom.key" (Value.int 42))._context.baggage
      = KVMap.set exSpan._context.baggage "custom.key" (Value.int 42) :=
  ⟨C9_baggage_mirror_amended.1 exSpan "custom.key" (Value.int 42)
     (by decide) (by decide) (by decide),
   C9_baggage_mirror_amended.2.2.2.2 exSpan "custom.key" (Value.int 42)⟩

/-- C6: on scoped-resource exit with a pending exception, the exception
triple is recorded on the delegate span, and it is already recorded at the
moment the delegate's finish effect happens (`exc_at_finish` snapshots the
recorded info at effective-finish time); in every case — exception or not,
and also when the span was already finished before the exit — the exit
leaves the span finished with the delegate's finish effect having happened
exactly once. -/
theorem C6_scoped_exit :
    (∀ (s : Span) (e : ExcInfo),
        s.finished = false → s._dd_span.dd_finished = false →
        s._dd_span.finish_effects = 0 →
        ((s.exit (some e))._dd_span.exc_info = some e ∧
         (s.exit (some e))._dd_span.exc_at_finish = some e ∧
         (s.exit (some e))._dd_span.finish_effects = 1 ∧
         (s.exit (some e))._dd_span.dd_finished = true ∧
         (s.exit (some e)).finished = true)) ∧
    (∀ (s : Span),
        s.finished = false → s._dd_span.dd_finished = false →
        s._dd_span.finish_effects = 0 →
        ((s.exit Option.none)._dd_span.exc_info = s._dd_span.exc_info ∧
         (s.exit Option.none)._dd_span.finish_effects = 1 ∧
         (s.exit Option.none).finished = true)) ∧
    (∀ (s : Span) (exc : Option ExcInfo),
        s._dd_span.dd_finished = true → s._dd_span.finish_effects = 1 →
        (s.exit exc)._dd_span.finish_effects = 1) := by
  refine ⟨?_, ?_, ?_⟩
  · intro s e h1 h2 h3
    refine ⟨?_, ?_, ?_, ?_, ?_⟩ <;>
      simp [Span.exit, DatadogSpan.scoped_exit, DatadogSpan.set_exc_info,
            DatadogSpan.finish, Span.finish, h1, h2, h3]
  · intro s h1 h2 h3
    refine ⟨?_, ?_, ?_⟩ <;>
      simp [Span.exit, DatadogSpan.scoped_exit, DatadogSpan.set_exc_info,
            DatadogSpan.finish, Span.finish, h1, h2, h3]
  · intro s exc h1 h2
    cases exc <;> by_cases hf : s.finished = true <;>
      simp [Span.exit, DatadogSpan.scoped_exit, DatadogSpan.set_exc_info,
            DatadogSpan.finish, Span.finish, h1, h2, hf]

/-- C6 witness: a concrete guarded block: exiting a fresh span with a pending
exception records the triple before the single effective finish; exiting an
already-finished span does not finish it a second time. -/
theorem C6_scoped_exit_witness :
    ((exSpan.exit (some exExc))._dd_span.exc_info = some exExc ∧
     (exSpan.exit (some exExc))._dd_span.exc_at_finish = some exExc ∧
     (exSpan.exit (some exExc))._dd_span.finish_effects = 1 ∧
     (exSpan.exit (some exExc))._dd_span.dd_finished = true ∧
     (exSpan.exit (some exExc)).finished = true) ∧
    ((exSpan.exit Option.none)._dd_span.finish_effects = 1) ∧
    (((exSpan.finish (some 3)).exit Option.none)._dd_span.finish_effects = 1) :=
  ⟨C6_scoped_exit.1 exSpan exExc (by decide) (by decide) (by decide),
   (C6_scoped_exit.2.1 exSpan (by decide) (by decide) (by decide)).2.1,
   C6_scoped_exit.2.2 (exSpan.finish (some 3)) Option.none (by decide) (by decide)⟩

/-- C10: the claim's conclusion fails on the code.  `set_baggage_item` holds
the lock only around the reference swap `self._context = new_ctx`; the read
of the current context and the copy-on-write construction of the new context
happen outside it.  With two concurrent writers of distinct keys, the
schedule read₁, read₂, swap₁, swap₂ makes both writers read the same
original baggage, and the second swap overwrites the first writer's
addition: both calls complete, yet the final baggage holds only `"k2"` and
the `"k1"` update is lost.  For contrast, the sequential schedule of the
same two writers keeps both keys, as the claim expects. -/
theorem C10_concurrent_baggage_lost_update :
    ((lostUpdateInit.run [false, true, false, true]).w1.done = true ∧
     (lostUpdateInit.run [false, true, false, true]).w2.done = true ∧
     (lostUpdateInit.run [false, true, false, true]).span.get_baggage_item "k2"
        = some (Value.int 2) ∧
     (lostUpdateInit.run [false, true, false, true]).span.get_baggage_item "k1"
        = Option.none) ∧
    ((lostUpdateInit.run [false, false, true, true]).span.get_baggage_item "k1"
        = some (Value.int 1) ∧
     (lostUpdateInit.run [false, false, true, true]).span.get_baggage_item "k2"
        = some (Value.int 2)) := by decide

end DDTrace
